import Mathlib

/-!
Shallow embedding of the delivery-agent backend server (backend/server.py):
order repository, order lifecycle routes, auth login route and the
Socket.IO real-time hub. MongoDB collections are modelled as Lists of
typed documents, datetimes as Nat server clocks, floats as Rat, and the
routes as pure functions from a request plus the current store to a
response plus the new store. The try/except wrappers of the Python
routes are modelled faithfully: an exception raised in the body
(including an HTTPException raised there) is caught and re-raised as a
500 whose detail is the str() of the caught exception.
-/

namespace DriverAgent

/-- Geographic location document, mirroring the Location pydantic model. -/
structure Location where
  lat : Rat
  lng : Rat
  address : String
deriving DecidableEq, Repr

/-- Customer info document, mirroring the CustomerInfo pydantic model. -/
structure CustomerInfo where
  name : String
  phone : String
deriving DecidableEq, Repr

/-- An order document as stored in the db.orders collection. The Mongo
field _id is modelled as the String field oid. -/
structure OrderDoc where
  oid : String
  order_number : String
  pickup_location : Location
  delivery_location : Location
  assigned_agent_id : String
  status : String
  customer_info : CustomerInfo
  created_at : Nat
  started_at : Option Nat
  completed_at : Option Nat
deriving DecidableEq, Repr

/-- The Order response model returned by the HTTP routes (field id is
the stringified Mongo _id). -/
structure Order where
  id : String
  order_number : String
  pickup_location : Location
  delivery_location : Location
  assigned_agent_id : String
  status : String
  customer_info : CustomerInfo
  created_at : Nat
  started_at : Option Nat
  completed_at : Option Nat
deriving DecidableEq, Repr

/-- An agent document as stored in the db.delivery_agents collection;
password holds the bcrypt hash. -/
structure AgentDoc where
  aid : String
  username : String
  password : String
  name : String
  phone : String
  status : String
  created_at : Nat
deriving DecidableEq, Repr

/-- Response model of the login route. -/
structure DeliveryAgentResponse where
  id : String
  username : String
  name : String
  phone : String
  status : String
  token : String
deriving DecidableEq, Repr

/-- A location sample document as inserted into db.location_history. -/
structure LocationHistoryDoc where
  agent_id : String
  order_id : String
  lat : Rat
  lng : Rat
  timestamp : Nat
deriving DecidableEq, Repr

/-- The MongoDB database: the three collections the server touches. -/
structure DB where
  delivery_agents : List AgentDoc
  orders : List OrderDoc
  location_history : List LocationHistoryDoc
deriving DecidableEq, Repr

/-- Python exceptions that the route bodies can raise. -/
inductive PyExc where
  | http (status : Nat) (detail : String)
  | invalidId (s : String)
deriving DecidableEq, Repr

/-- The str() rendering of a caught exception, used as the 500 detail. -/
def strPyExc : PyExc → String
  | .http s d => toString s ++ ": " ++ d
  | .invalidId s => s ++ " is not a valid ObjectId"

/-- An HTTP error response (status code and detail). -/
structure HTTPError where
  status : Nat
  detail : String
deriving DecidableEq, Repr

/-- The catch-all wrapper of the order routes: except Exception as e,
raise HTTPException(status_code=500, detail=str(e)). An HTTPException
raised inside the body is itself an Exception, so it is caught too. -/
def handle500 {α : Type} : Except PyExc α → Except HTTPError α
  | .ok a => .ok a
  | .error e => .error ⟨500, strPyExc e⟩

/-- Hex-digit test for ObjectId validation. -/
def isHexChar (c : Char) : Bool :=
  c.isDigit || "abcdef".data.contains c || "ABCDEF".data.contains c

/-- bson.ObjectId(s) succeeds exactly on a 24-character hex string
(the 12-byte constructor form does not arise from URL path strings). -/
def isValidObjectId (s : String) : Bool :=
  s.length == 24 && s.data.all isHexChar

/-- db.orders.find_one on _id: first document with the given id. -/
def findOrder (db : DB) (order_id : String) : Option OrderDoc :=
  db.orders.find? (fun o => o.oid == order_id)

/-- Mongo update_one: rewrite the first document matching p with f and
report the modified count, which is 0 when no document matched or when
the update left the matched document unchanged. -/
def updateFirst (p : OrderDoc → Bool) (f : OrderDoc → OrderDoc) :
    List OrderDoc → List OrderDoc × Nat
  | [] => ([], 0)
  | o :: os =>
    if p o then
      (f o :: os, if f o = o then 0 else 1)
    else
      let r := updateFirst p f os
      (o :: r.1, r.2)

/-- The $set document of the start route: status in_progress and
started_at = datetime.utcnow(). -/
def applySetStart (now : Nat) (o : OrderDoc) : OrderDoc :=
  { o with status := "in_progress", started_at := some now }

/-- The $set document of the complete route: status completed and
completed_at = datetime.utcnow(). -/
def applySetComplete (now : Nat) (o : OrderDoc) : OrderDoc :=
  { o with status := "completed", completed_at := some now }

/-- Conversion of a stored order document to the Order response model,
as built field by field in the route handlers. -/
def orderResponse (o : OrderDoc) : Order :=
  ⟨o.oid, o.order_number, o.pickup_location, o.delivery_location,
   o.assigned_agent_id, o.status, o.customer_info, o.created_at,
   o.started_at, o.completed_at⟩

/-- Body of PUT orders/(order_id)/start inside its try block:
ObjectId(order_id) may raise, then an unconditional update_one, then a
404 HTTPException when modified_count == 0. -/
def start_orderTry (now : Nat) (db : DB) (order_id : String) :
    Except PyExc String × DB :=
  if isValidObjectId order_id then
    let r := updateFirst (fun o => o.oid == order_id) (applySetStart now) db.orders
    ((if r.2 == 0 then .error (.http 404 "Order not found")
      else .ok "Order started successfully"),
     { db with orders := r.1 })
  else
    (.error (.invalidId order_id), db)

/-- PUT orders/(order_id)/start with its catch-all 500 wrapper. -/
def start_order (now : Nat) (db : DB) (order_id : String) :
    Except HTTPError String × DB :=
  let r := start_orderTry now db order_id
  (handle500 r.1, r.2)

/-- Body of PUT orders/(order_id)/complete inside its try block. -/
def complete_orderTry (now : Nat) (db : DB) (order_id : String) :
    Except PyExc String × DB :=
  if isValidObjectId order_id then
    let r := updateFirst (fun o => o.oid == order_id) (applySetComplete now) db.orders
    ((if r.2 == 0 then .error (.http 404 "Order not found")
      else .ok "Order completed successfully"),
     { db with orders := r.1 })
  else
    (.error (.invalidId order_id), db)

/-- PUT orders/(order_id)/complete with its catch-all 500 wrapper. -/
def complete_order (now : Nat) (db : DB) (order_id : String) :
    Except HTTPError String × DB :=
  let r := complete_orderTry now db order_id
  (handle500 r.1, r.2)

/-- Body of GET orders/(order_id) inside its try block. -/
def get_order_detailTry (db : DB) (order_id : String) : Except PyExc Order :=
  if isValidObjectId order_id then
    match findOrder db order_id with
    | none => .error (.http 404 "Order not found")
    | some o => .ok (orderResponse o)
  else
    .error (.invalidId order_id)

/-- GET orders/(order_id) with its catch-all 500 wrapper. -/
def get_order_detail (db : DB) (order_id : String) : Except HTTPError Order :=
  handle500 (get_order_detailTry db order_id)

/-- GET orders/assigned/(agent_id): find by assigned_agent_id with
to_list(100); the agent id is used as a plain string, no ObjectId
parse, so the body raises nothing in this model. -/
def get_assigned_orders (db : DB) (agent_id : String) :
    Except HTTPError (List Order) :=
  .ok (((db.orders.filter (fun o => o.assigned_agent_id == agent_id)).take 100).map
    orderResponse)

/-- POST auth/login. Password verification (bcrypt.checkpw) and token
generation (uuid4) are external primitives, passed in as the verify
function and the fresh token value. -/
def login (verify : String → String → Bool) (freshToken : String)
    (db : DB) (username password : String) :
    Except HTTPError DeliveryAgentResponse :=
  match db.delivery_agents.find? (fun a => a.username == username) with
  | none => .error ⟨401, "Invalid credentials"⟩
  | some agent =>
    if verify password agent.password then
      .ok ⟨agent.aid, agent.username, agent.name, agent.phone, agent.status, freshToken⟩
    else
      .error ⟨401, "Invalid credentials"⟩

instance {ε α : Type} [DecidableEq ε] [DecidableEq α] : DecidableEq (Except ε α) :=
  fun x y =>
    match x, y with
    | .ok a, .ok b =>
      if h : a = b then .isTrue (by rw [h]) else .isFalse (by simp [h])
    | .ok _, .error _ => .isFalse (by simp)
    | .error _, .ok _ => .isFalse (by simp)
    | .error e, .error e' =>
      if h : e = e' then .isTrue (by rw [h]) else .isFalse (by simp [h])

/-- Payload carried by an emitted Socket.IO event. -/
inductive Payload where
  | location (agent_id order_id : String) (lat lng : Rat)
  | connAck (connStatus : String) (sid : String)
deriving DecidableEq, Repr

/-- One observable effect of a Socket.IO handler, in execution order:
an emit (with its recipient set), a location_history insert, or a
logged-and-swallowed error. -/
inductive Effect where
  | emit (event : String) (data : Payload) (recipients : List String)
  | persist (sample : LocationHistoryDoc)
  | logError (msg : String)
deriving DecidableEq, Repr

/-- The real-time hub: the set of currently connected session ids. -/
structure Hub where
  sessions : List String
deriving DecidableEq, Repr

/-- The connect event handler: by the time it runs the new session is
in the connected set, and sio.emit with no target broadcasts
connection_response (with status connected and the new sid) to every
currently connected session. -/
def connectHandler (hub : Hub) (sid : String) : Hub × List Effect :=
  let hub' : Hub := ⟨hub.sessions ++ [sid]⟩
  (hub', [.emit "connection_response" (.connAck "connected" sid) hub'.sessions])

/-- The location_update event handler. It first awaits
sio.emit with no target, broadcasting agent_location_update with the
received data to every currently connected session, and then tries the
location_history insert; when the store is unavailable (storeOk false)
the insert raises, the error is logged and swallowed, and the handler
still returns normally. Returns the effect trace in execution order
together with the resulting database. -/
def location_update (now : Nat) (storeOk : Bool) (hub : Hub) (db : DB)
    (agent_id order_id : String) (lat lng : Rat) : List Effect × DB :=
  let broadcast : Effect :=
    .emit "agent_location_update" (.location agent_id order_id lat lng) hub.sessions
  let sample : LocationHistoryDoc := ⟨agent_id, order_id, lat, lng, now⟩
  if storeOk then
    ([broadcast, .persist sample],
     { db with location_history := db.location_history ++ [sample] })
  else
    ([broadcast, .logError "Error storing location"], db)

/-- The recipient list of the first emitted event of a handler trace. -/
def broadcastRecipients (tr : List Effect) : List String :=
  match tr.head? with
  | some (.emit _ _ r) => r
  | _ => []

/-- One lifecycle operation on an order: the PUT start route or the PUT
complete route, at a given server time. -/
inductive LifecycleOp where
  | startOp (t : Nat)
  | completeOp (t : Nat)
deriving DecidableEq, Repr

/-- Effect of one lifecycle operation on the matched order document:
start applies the $set of the start route, complete that of the
complete route. -/
def applyOp (o : OrderDoc) : LifecycleOp → OrderDoc
  | .startOp t => applySetStart t o
  | .completeOp t => applySetComplete t o

/-- Effect of a sequence of lifecycle operations on an order document. -/
def applyOps (o : OrderDoc) (ops : List LifecycleOp) : OrderDoc :=
  ops.foldl applyOp o

/-- Whether a sequence of lifecycle operations contains a start. -/
def hasStart (ops : List LifecycleOp) : Bool :=
  ops.any fun op => match op with | .startOp _ => true | .completeOp _ => false

/-- Whether a sequence of lifecycle operations contains a complete. -/
def hasComplete (ops : List LifecycleOp) : Bool :=
  ops.any fun op => match op with | .startOp _ => false | .completeOp _ => true

/-- An order document as freshly created by provisioning: status
pending, no started_at, no completed_at. -/
def freshOrder (oid num : String) (pl dl : Location) (aid : String)
    (ci : CustomerInfo) (t : Nat) : OrderDoc :=
  ⟨oid, num, pl, dl, aid, "pending", ci, t, none, none⟩

/-! Concrete example data used by the closed evaluation theorems. -/

/-- A valid ObjectId for the example order. -/
def exOid : String := "0123456789abcdef01234567"

/-- A valid ObjectId naming no stored order. -/
def unknownOid : String := "ffffffffffffffffffffffff"

/-- Example pickup location. -/
def exPickup : Location := ⟨17, 78, "Banjara Hills, Hyderabad"⟩

/-- Example delivery location. -/
def exDelivery : Location := ⟨18, 79, "Jubilee Hills, Hyderabad"⟩

/-- Example customer. -/
def exCustomer : CustomerInfo := ⟨"Priya Sharma", "+91 9988776655"⟩

/-- A freshly created pending order, as inserted by provisioning. -/
def pendingOrder : OrderDoc :=
  ⟨exOid, "HYD001", exPickup, exDelivery, "A1", "pending", exCustomer, 0, none, none⟩

/-- The same order after a completed run of the lifecycle. -/
def completedOrder : OrderDoc :=
  { pendingOrder with status := "completed", started_at := some 1, completed_at := some 2 }

/-- Example stored agent; the password field holds the stored hash. -/
def exAgent : AgentDoc :=
  ⟨"A1", "agent1", "hash(password123)", "Rajesh Kumar", "+91 9876543210", "active", 0⟩

/-- A database holding one pending order. -/
def dbPending : DB := ⟨[exAgent], [pendingOrder], []⟩

/-- A database holding one completed order. -/
def dbCompleted : DB := ⟨[exAgent], [completedOrder], []⟩

/-- An example verify function standing in for bcrypt.checkpw: the
stored hash of p is the string hash(p). -/
def exVerify (plain hashed : String) : Bool :=
  hashed == "hash(" ++ plain ++ ")"

/-- The document stored for the example order after one complete call
on the fresh pending order at server time 7. -/
def c3ResultDoc : OrderDoc :=
  ⟨exOid, "HYD001", exPickup, exDelivery, "A1", "completed", exCustomer, 0, none, some 7⟩

/-- An example hub with two connected sessions. -/
def exHub : Hub := ⟨["S1", "S2"]⟩

/-! Support lemmas about the Mongo update_one model. -/

theorem updateFirst_fst_length (p : OrderDoc → Bool) (f : OrderDoc → OrderDoc) :
    ∀ l : List OrderDoc, ((updateFirst p f l).1).length = l.length := by
  intro l
  induction l with
  | nil => rfl
  | cons o os ih =>
    by_cases hp : p o
    · simp [updateFirst, hp]
    · simp [updateFirst, hp, ih]

theorem updateFirst_getElem (p : OrderDoc → Bool) (f : OrderDoc → OrderDoc)
    (l : List OrderDoc) (i : Nat) :
    ((updateFirst p f l).1)[i]? = l[i]? ∨
    ∃ o, l[i]? = some o ∧ p o = true ∧ ((updateFirst p f l).1)[i]? = some (f o) := by
  induction l generalizing i with
  | nil => left; rfl
  | cons o os ih =>
    by_cases hp : p o
    · cases i with
      | zero => right; exact ⟨o, by simp, hp, by simp [updateFirst, hp]⟩
      | succ n => left; simp [updateFirst, hp]
    · cases i with
      | zero => left; simp [updateFirst, hp]
      | succ n =>
        rcases ih n with h | ⟨o', h1, h2, h3⟩
        · left; simpa [updateFirst, hp] using h
        · right; exact ⟨o', by simpa using h1, h2, by simpa [updateFirst, hp] using h3⟩

theorem updateFirst_of_find_none (p : OrderDoc → Bool) (f : OrderDoc → OrderDoc) :
    ∀ l : List OrderDoc, l.find? p = none → updateFirst p f l = (l, 0) := by
  intro l
  induction l with
  | nil => intro _; rfl
  | cons o os ih =>
    intro h
    by_cases hp : p o
    · simp [List.find?_cons, hp] at h
    · simp only [List.find?_cons, hp] at h
      simp [updateFirst, hp, ih (by simpa using h)]

theorem updateFirst_snd_of_find (p : OrderDoc → Bool) (f : OrderDoc → OrderDoc) :
    ∀ (l : List OrderDoc) (o : OrderDoc), l.find? p = some o →
      (updateFirst p f l).2 = if f o = o then 0 else 1 := by
  intro l
  induction l with
  | nil => intro o h; simp [List.find?] at h
  | cons a as ih =>
    intro o h
    by_cases hp : p a
    · have ha : a = o := by simpa [List.find?_cons, hp] using h
      subst ha
      simp [updateFirst, hp]
    · simp only [List.find?_cons, hp] at h
      simp [updateFirst, hp, ih o (by simpa using h)]

theorem updateFirst_fst_find (p : OrderDoc → Bool) (f : OrderDoc → OrderDoc)
    (hf : ∀ a, p a = true → p (f a) = true) :
    ∀ (l : List OrderDoc) (o : OrderDoc), l.find? p = some o →
      ((updateFirst p f l).1).find? p = some (f o) := by
  intro l
  induction l with
  | nil => intro o h; simp [List.find?] at h
  | cons a as ih =>
    intro o h
    by_cases hp : p a
    · have ha : a = o := by simpa [List.find?_cons, hp] using h
      subst ha
      simp [updateFirst, hp, List.find?_cons, hf a hp]
    · simp only [List.find?_cons, hp] at h
      simp [updateFirst, hp, List.find?_cons, ih o (by simpa using h)]

/-! Bridge lemmas between the routes and the update model. -/

theorem applySetStart_eq_self (now : Nat) (o : OrderDoc) :
    applySetStart now o = o ↔ (o.status = "in_progress" ∧ o.started_at = some now) := by
  cases o
  simp only [applySetStart, OrderDoc.mk.injEq, true_and, and_true]
  tauto

theorem applySetComplete_eq_self (now : Nat) (o : OrderDoc) :
    applySetComplete now o = o ↔ (o.status = "completed" ∧ o.completed_at = some now) := by
  cases o
  simp only [applySetComplete, OrderDoc.mk.injEq, true_and, and_true]
  tauto

theorem start_order_snd (now : Nat) (db : DB) (oid : String)
    (hv : isValidObjectId oid = true) :
    (start_order now db oid).2 =
      { db with
        orders := (updateFirst (fun o => o.oid == oid) (applySetStart now) db.orders).1 } := by
  simp [start_order, start_orderTry, hv]

theorem complete_order_snd (now : Nat) (db : DB) (oid : String)
    (hv : isValidObjectId oid = true) :
    (complete_order now db oid).2 =
      { db with
        orders := (updateFirst (fun o => o.oid == oid) (applySetComplete now) db.orders).1 } := by
  simp [complete_order, complete_orderTry, hv]

theorem start_order_ok_iff (now : Nat) (db : DB) (oid : String) (o : OrderDoc)
    (hv : isValidObjectId oid = true) (h : findOrder db oid = some o) :
    (start_order now db oid).1 = .ok "Order started successfully" ↔
      applySetStart now o ≠ o := by
  have hm := updateFirst_snd_of_find (fun x => x.oid == oid) (applySetStart now)
    db.orders o h
  by_cases he : applySetStart now o = o
  · simp [start_order, start_orderTry, hv, hm, he, handle500]
  · simp [start_order, start_orderTry, hv, hm, he, handle500]

theorem complete_order_ok_iff (now : Nat) (db : DB) (oid : String) (o : OrderDoc)
    (hv : isValidObjectId oid = true) (h : findOrder db oid = some o) :
    (complete_order now db oid).1 = .ok "Order completed successfully" ↔
      applySetComplete now o ≠ o := by
  have hm := updateFirst_snd_of_find (fun x => x.oid == oid) (applySetComplete now)
    db.orders o h
  by_cases he : applySetComplete now o = o
  · simp [complete_order, complete_orderTry, hv, hm, he, handle500]
  · simp [complete_order, complete_orderTry, hv, hm, he, handle500]

theorem findOrder_after_start (now : Nat) (db : DB) (oid : String) (o : OrderDoc)
    (hv : isValidObjectId oid = true) (h : findOrder db oid = some o) :
    findOrder (start_order now db oid).2 oid = some (applySetStart now o) := by
  rw [start_order_snd now db oid hv]
  exact updateFirst_fst_find (fun x => x.oid == oid) (applySetStart now)
    (fun a ha => ha) db.orders o h

theorem findOrder_after_complete (now : Nat) (db : DB) (oid : String) (o : OrderDoc)
    (hv : isValidObjectId oid = true) (h : findOrder db oid = some o) :
    findOrder (complete_order now db oid).2 oid = some (applySetComplete now o) := by
  rw [complete_order_snd now db oid hv]
  exact updateFirst_fst_find (fun x => x.oid == oid) (applySetComplete now)
    (fun a ha => ha) db.orders o h

theorem start_order_valid_of_ok (now : Nat) (db : DB) (oid : String) (msg : String)
    (h : (start_order now db oid).1 = .ok msg) : isValidObjectId oid = true := by
  by_contra hv
  simp only [Bool.not_eq_true] at hv
  simp [start_order, start_orderTry, hv, handle500] at h

theorem complete_order_valid_of_ok (now : Nat) (db : DB) (oid : String) (msg : String)
    (h : (complete_order now db oid).1 = .ok msg) : isValidObjectId oid = true := by
  by_contra hv
  simp only [Bool.not_eq_true] at hv
  simp [complete_order, complete_orderTry, hv, handle500] at h

theorem applyOps_started_at : ∀ (ops : List LifecycleOp) (o : OrderDoc),
    (applyOps o ops).started_at.isSome = (o.started_at.isSome || hasStart ops) := by
  intro ops
  induction ops with
  | nil => intro o; simp [applyOps, hasStart]
  | cons op ops ih =>
    intro o
    have hstep : applyOps o (op :: ops) = applyOps (applyOp o op) ops := rfl
    rw [hstep, ih (applyOp o op)]
    cases op with
    | startOp t => simp [applyOp, applySetStart, hasStart]
    | completeOp t => simp [applyOp, applySetComplete, hasStart]

theorem applyOps_completed_at : ∀ (ops : List LifecycleOp) (o : OrderDoc),
    (applyOps o ops).completed_at.isSome = (o.completed_at.isSome || hasComplete ops) := by
  intro ops
  induction ops with
  | nil => intro o; simp [applyOps, hasComplete]
  | cons op ops ih =>
    intro o
    have hstep : applyOps o (op :: ops) = applyOps (applyOp o op) ops := rfl
    rw [hstep, ih (applyOp o op)]
    cases op with
    | startOp t => simp [applyOp, applySetStart, hasComplete]
    | completeOp t => simp [applyOp, applySetComplete, hasComplete]

/-! Claim theorems. -/

/-- Claim C1, counterexample: the stored example order has status
completed, not pending, yet the start route succeeds instead of
failing with InvalidTransition — no status precondition exists. -/
theorem C1_cex :
    findOrder dbCompleted exOid = some completedOrder ∧
    completedOrder.status = "completed" ∧
    (start_order 5 dbCompleted exOid).1 = .ok "Order started successfully" := by
  decide

/-- Claim C1, amended: for every stored order, start succeeds if and
only if the unconditional update modifies the document, that is unless
the status is already in_progress and started_at already equals the
current time; the current status is never checked and no
InvalidTransition failure exists, the new state unconditionally
carrying status in_progress and started_at = now. Likewise complete,
substituting completed and completed_at. -/
theorem C1_transitions_unconditional (now : Nat) (db : DB) (oid : String)
    (o : OrderDoc) (hv : isValidObjectId oid = true)
    (h : findOrder db oid = some o) :
    ((start_order now db oid).1 = .ok "Order started successfully" ↔
        (o.status ≠ "in_progress" ∨ o.started_at ≠ some now)) ∧
    ((complete_order now db oid).1 = .ok "Order completed successfully" ↔
        (o.status ≠ "completed" ∨ o.completed_at ≠ some now)) ∧
    findOrder (start_order now db oid).2 oid = some (applySetStart now o) ∧
    findOrder (complete_order now db oid).2 oid = some (applySetComplete now o) := by
  refine ⟨?_, ?_, findOrder_after_start now db oid o hv h,
    findOrder_after_complete now db oid o hv h⟩
  · rw [start_order_ok_iff now db oid o hv h, Ne, applySetStart_eq_self]
    tauto
  · rw [complete_order_ok_iff now db oid o hv h, Ne, applySetComplete_eq_self]
    tauto

theorem C1_transitions_unconditional_witness :
    ((start_order 5 dbCompleted exOid).1 = .ok "Order started successfully" ↔
        (completedOrder.status ≠ "in_progress" ∨ completedOrder.started_at ≠ some 5)) ∧
    ((complete_order 5 dbCompleted exOid).1 = .ok "Order completed successfully" ↔
        (completedOrder.status ≠ "completed" ∨ completedOrder.completed_at ≠ some 5)) ∧
    findOrder (start_order 5 dbCompleted exOid).2 exOid =
      some (applySetStart 5 completedOrder) ∧
    findOrder (complete_order 5 dbCompleted exOid).2 exOid =
      some (applySetComplete 5 completedOrder) :=
  C1_transitions_unconditional 5 dbCompleted exOid completedOrder (by decide) (by decide)

/-- Claim C2, counterexample: starting the example pending order at
time 1 and again at time 2 succeeds both times, and the second call
overwrites started_at from 1 to 2. -/
theorem C2_cex :
    (start_order 1 dbPending exOid).1 = .ok "Order started successfully" ∧
    (findOrder (start_order 1 dbPending exOid).2 exOid).map OrderDoc.started_at =
      some (some 1) ∧
    (start_order 2 (start_order 1 dbPending exOid).2 exOid).1 =
      .ok "Order started successfully" ∧
    (findOrder (start_order 2 (start_order 1 dbPending exOid).2 exOid).2 exOid).map
        OrderDoc.started_at = some (some 2) ∧
    some (some 2) ≠ some (some (1 : Nat)) := by
  decide

/-- Claim C2, amended: calling start twice on a stored order succeeds
on both calls whenever the two server times differ, and the second
call is not a no-op: it resets started_at to the second server time. -/
theorem C2_second_start_overwrites (t1 t2 : Nat) (db : DB) (oid : String)
    (o : OrderDoc) (hv : isValidObjectId oid = true)
    (h : findOrder db oid = some o) (hne : t2 ≠ t1) :
    findOrder (start_order t1 db oid).2 oid = some (applySetStart t1 o) ∧
    (applySetStart t1 o).started_at = some t1 ∧
    (start_order t2 (start_order t1 db oid).2 oid).1 =
      .ok "Order started successfully" ∧
    findOrder (start_order t2 (start_order t1 db oid).2 oid).2 oid =
      some (applySetStart t2 (applySetStart t1 o)) ∧
    (applySetStart t2 (applySetStart t1 o)).started_at = some t2 := by
  have h1 := findOrder_after_start t1 db oid o hv h
  refine ⟨h1, rfl, ?_, findOrder_after_start t2 _ oid _ hv h1, rfl⟩
  rw [start_order_ok_iff t2 _ oid _ hv h1, Ne, applySetStart_eq_self]
  rintro ⟨_, hs⟩
  simp only [applySetStart, Option.some.injEq] at hs
  exact hne hs.symm

theorem C2_second_start_overwrites_witness :
    findOrder (start_order 1 dbPending exOid).2 exOid =
      some (applySetStart 1 pendingOrder) ∧
    (applySetStart 1 pendingOrder).started_at = some 1 ∧
    (start_order 2 (start_order 1 dbPending exOid).2 exOid).1 =
      .ok "Order started successfully" ∧
    findOrder (start_order 2 (start_order 1 dbPending exOid).2 exOid).2 exOid =
      some (applySetStart 2 (applySetStart 1 pendingOrder)) ∧
    (applySetStart 2 (applySetStart 1 pendingOrder)).started_at = some 2 :=
  C2_second_start_overwrites 1 2 dbPending exOid pendingOrder
    (by decide) (by decide) (by decide)

/-- Claim C3, counterexample: calling complete directly on the fresh
pending example order reaches a state with status completed whose
started_at is unset, so the claimed invariant (started_at set iff
status is in_progress or completed) is violated in a state reachable
by the lifecycle operations. -/
theorem C3_cex :
    findOrder ((complete_order 7 dbPending exOid).2) exOid = some c3ResultDoc ∧
    c3ResultDoc.status = "completed" ∧
    c3ResultDoc.started_at = none ∧
    ¬ (c3ResultDoc.started_at.isSome = true ↔
        (c3ResultDoc.status = "in_progress" ∨ c3ResultDoc.status = "completed")) := by
  decide

/-- Claim C3, amended: in every state reachable from a freshly created
order by any sequence of the lifecycle $set updates, started_at is set
if and only if the sequence contains a start, and completed_at is set
if and only if the sequence contains a complete; status alone does not
determine the timestamps, because the operations are unconditional. -/
theorem C3_timestamps_track_ops (ops : List LifecycleOp) (oid num : String)
    (pl dl : Location) (aid : String) (ci : CustomerInfo) (t : Nat) :
    (applyOps (freshOrder oid num pl dl aid ci t) ops).started_at.isSome =
      hasStart ops ∧
    (applyOps (freshOrder oid num pl dl aid ci t) ops).completed_at.isSome =
      hasComplete ops := by
  constructor
  · rw [applyOps_started_at]; simp [freshOrder]
  · rw [applyOps_completed_at]; simp [freshOrder]

/-- Claim C4: the claim states the intended behavior (the routes build
a 404 Order-not-found response), but each route body raises its
HTTPException inside a try block whose except Exception re-raises it
as a 500, so an unknown or malformed order id actually yields a
generic 500 transport error, never the 404 domain error. -/
theorem C4_unknown_id_returns_500 :
    get_order_detail dbPending unknownOid = .error ⟨500, "404: Order not found"⟩ ∧
    (start_order 3 dbPending unknownOid).1 = .error ⟨500, "404: Order not found"⟩ ∧
    (complete_order 3 dbPending unknownOid).1 =
      .error ⟨500, "404: Order not found"⟩ ∧
    get_order_detail dbPending "not-an-objectid" =
      .error ⟨500, strPyExc (.invalidId "not-an-objectid")⟩ ∧
    (start_order 3 dbPending "not-an-objectid").1 =
      .error ⟨500, strPyExc (.invalidId "not-an-objectid")⟩ := by
  decide

/-- Claim C5: the location_update handler broadcasts before it
persists: the emit of agent_location_update to all currently connected
sessions is the first effect of the trace whether or not the store is
available, and when the location_history insert fails the error is
logged and swallowed, the broadcast still having been delivered and
the database left unchanged. -/
theorem C5_broadcast_first (now : Nat) (hub : Hub) (db : DB)
    (agent_id order_id : String) (lat lng : Rat) :
    (∀ b : Bool, ((location_update now b hub db agent_id order_id lat lng).1).head? =
        some (.emit "agent_location_update" (.location agent_id order_id lat lng)
          hub.sessions)) ∧
    (location_update now true hub db agent_id order_id lat lng).1 =
      [.emit "agent_location_update" (.location agent_id order_id lat lng) hub.sessions,
       .persist ⟨agent_id, order_id, lat, lng, now⟩] ∧
    (location_update now false hub db agent_id order_id lat lng).1 =
      [.emit "agent_location_update" (.location agent_id order_id lat lng) hub.sessions,
       .logError "Error storing location"] ∧
    (location_update now false hub db agent_id order_id lat lng).2 = db := by
  refine ⟨?_, rfl, rfl, rfl⟩
  intro b
  cases b <;> rfl

/-- Claim C6: on a location_update event the hub re-broadcasts the
received payload verbatim as agent_location_update to every currently
connected session, the sender included, and persists exactly one
LocationSample carrying the payload fields and the server-assigned
timestamp, all other collections unchanged. -/
theorem C6_relay_and_persist (now : Nat) (hub : Hub) (db : DB)
    (sid agent_id order_id : String) (lat lng : Rat)
    (hsid : sid ∈ hub.sessions) :
    (location_update now true hub db agent_id order_id lat lng).1 =
      [.emit "agent_location_update" (.location agent_id order_id lat lng) hub.sessions,
       .persist ⟨agent_id, order_id, lat, lng, now⟩] ∧
    broadcastRecipients (location_update now true hub db agent_id order_id lat lng).1 =
      hub.sessions ∧
    sid ∈ broadcastRecipients
      (location_update now true hub db agent_id order_id lat lng).1 ∧
    ((location_update now true hub db agent_id order_id lat lng).2).location_history =
      db.location_history ++ [⟨agent_id, order_id, lat, lng, now⟩] ∧
    ((location_update now true hub db agent_id order_id lat lng).2).orders = db.orders ∧
    ((location_update now true hub db agent_id order_id lat lng).2).delivery_agents =
      db.delivery_agents := by
  refine ⟨rfl, rfl, ?_, rfl, rfl, rfl⟩
  simpa [location_update, broadcastRecipients] using hsid

theorem C6_relay_and_persist_witness :
    (location_update 9 true exHub dbPending "A1" exOid 17 78).1 =
      [.emit "agent_location_update" (.location "A1" exOid 17 78) exHub.sessions,
       .persist ⟨"A1", exOid, 17, 78, 9⟩] ∧
    broadcastRecipients (location_update 9 true exHub dbPending "A1" exOid 17 78).1 =
      exHub.sessions ∧
    "S1" ∈ broadcastRecipients (location_update 9 true exHub dbPending "A1" exOid 17 78).1 ∧
    ((location_update 9 true exHub dbPending "A1" exOid 17 78).2).location_history =
      dbPending.location_history ++ [⟨"A1", exOid, 17, 78, 9⟩] ∧
    ((location_update 9 true exHub dbPending "A1" exOid 17 78).2).orders =
      dbPending.orders ∧
    ((location_update 9 true exHub dbPending "A1" exOid 17 78).2).delivery_agents =
      dbPending.delivery_agents :=
  C6_relay_and_persist 9 exHub dbPending "S1" "A1" exOid 17 78 (by decide)

/-- Claim C7: login returns the token and the profile of the stored
agent when the username matches and the password verifies, and for
both invalid causes — unknown username or failed verification — it
returns the one same error value, 401 Invalid credentials, never
distinguishing the two. -/
theorem C7_login_behavior (verify : String → String → Bool) (freshToken : String)
    (db : DB) (username password : String) :
    (∀ a, db.delivery_agents.find? (fun x => x.username == username) = some a →
        verify password a.password = true →
        login verify freshToken db username password =
          .ok ⟨a.aid, a.username, a.name, a.phone, a.status, freshToken⟩) ∧
    (db.delivery_agents.find? (fun x => x.username == username) = none →
        login verify freshToken db username password =
          .error ⟨401, "Invalid credentials"⟩) ∧
    (∀ a, db.delivery_agents.find? (fun x => x.username == username) = some a →
        verify password a.password = false →
        login verify freshToken db username password =
          .error ⟨401, "Invalid credentials"⟩) := by
  refine ⟨?_, ?_, ?_⟩
  · intro a ha hverify
    simp [login, ha, hverify]
  · intro h
    simp [login, h]
  · intro a ha hverify
    simp [login, ha, hverify]

theorem C7_login_behavior_witness :
    login exVerify "tok" dbPending "agent1" "password123" =
      .ok ⟨"A1", "agent1", "Rajesh Kumar", "+91 9876543210", "active", "tok"⟩ ∧
    login exVerify "tok" dbPending "nobody" "password123" =
      .error ⟨401, "Invalid credentials"⟩ ∧
    login exVerify "tok" dbPending "agent1" "wrong" =
      .error ⟨401, "Invalid credentials"⟩ :=
  ⟨(C7_login_behavior exVerify "tok" dbPending "agent1" "password123").1 exAgent
      (by decide) (by decide),
   (C7_login_behavior exVerify "tok" dbPending "nobody" "password123").2.1 (by decide),
   (C7_login_behavior exVerify "tok" dbPending "agent1" "wrong").2.2 exAgent
      (by decide) (by decide)⟩

/-- Claim C8: the assigned-orders route returns exactly the stored
orders whose assigned_agent_id equals the requested agent id, capped
at 100, every returned order matching the agent, the whole matching
set returned whenever it fits the cap, and an empty list — not a
failure — when no order matches. -/
theorem C8_assigned_orders (db : DB) (agent_id : String) :
    get_assigned_orders db agent_id =
      .ok (((db.orders.filter (fun o => o.assigned_agent_id == agent_id)).take 100).map
        orderResponse) ∧
    ∀ l, get_assigned_orders db agent_id = .ok l →
      (∀ o ∈ l, o.assigned_agent_id = agent_id) ∧
      l.length ≤ 100 ∧
      ((db.orders.filter (fun o => o.assigned_agent_id == agent_id)).length ≤ 100 →
        l = (db.orders.filter (fun o => o.assigned_agent_id == agent_id)).map
          orderResponse) ∧
      ((∀ o ∈ db.orders, o.assigned_agent_id ≠ agent_id) → l = []) := by
  refine ⟨rfl, ?_⟩
  intro l hl
  have hl' : l = ((db.orders.filter (fun o => o.assigned_agent_id == agent_id)).take
      100).map orderResponse := by
    simpa [get_assigned_orders] using hl.symm
  subst hl'
  refine ⟨?_, ?_, ?_, ?_⟩
  · intro o ho
    rcases List.mem_map.mp ho with ⟨od, hod, rfl⟩
    have hod' := List.mem_filter.mp (List.take_subset _ _ hod)
    simpa [orderResponse] using hod'.2
  · simp only [List.length_map, List.length_take]
    exact Nat.min_le_left 100 _
  · intro hle
    rw [List.take_of_length_le hle]
  · intro hnone
    have : db.orders.filter (fun o => o.assigned_agent_id == agent_id) = [] := by
      rw [List.filter_eq_nil_iff]
      intro o ho
      simpa using hnone o ho
    simp [this]

theorem C8_assigned_orders_witness :
    get_assigned_orders dbPending "A1" =
      .ok (((dbPending.orders.filter (fun o => o.assigned_agent_id == "A1")).take
        100).map orderResponse) ∧
    ∀ o ∈ [orderResponse pendingOrder], o.assigned_agent_id = "A1" :=
  ⟨(C8_assigned_orders dbPending "A1").1,
   ((C8_assigned_orders dbPending "A1").2 [orderResponse pendingOrder] (by decide)).1⟩

/-- Claim C9: a successful start or complete changes only the matched
order and in it only the status field and the relevant timestamp
field; the agents collection, the location history, every other order
and every other field of the matched order are unchanged. -/
theorem C9_transition_frame (now : Nat) (db : DB) (oid : String) (msg : String) :
    ((start_order now db oid).1 = .ok msg →
      ((start_order now db oid).2).delivery_agents = db.delivery_agents ∧
      ((start_order now db oid).2).location_history = db.location_history ∧
      ((start_order now db oid).2).orders.length = db.orders.length ∧
      ∀ i : Nat, ((start_order now db oid).2).orders[i]? = db.orders[i]? ∨
        ∃ o, db.orders[i]? = some o ∧ o.oid = oid ∧
          ((start_order now db oid).2).orders[i]? =
            some { o with status := "in_progress", started_at := some now }) ∧
    ((complete_order now db oid).1 = .ok msg →
      ((complete_order now db oid).2).delivery_agents = db.delivery_agents ∧
      ((complete_order now db oid).2).location_history = db.location_history ∧
      ((complete_order now db oid).2).orders.length = db.orders.length ∧
      ∀ i : Nat, ((complete_order now db oid).2).orders[i]? = db.orders[i]? ∨
        ∃ o, db.orders[i]? = some o ∧ o.oid = oid ∧
          ((complete_order now db oid).2).orders[i]? =
            some { o with status := "completed", completed_at := some now }) := by
  constructor
  · intro h
    have hv := start_order_valid_of_ok now db oid msg h
    rw [start_order_snd now db oid hv]
    refine ⟨rfl, rfl, updateFirst_fst_length _ _ db.orders, ?_⟩
    intro i
    rcases updateFirst_getElem (fun x => x.oid == oid) (applySetStart now)
        db.orders i with hcase | ⟨o, h1, h2, h3⟩
    · left; exact hcase
    · right; exact ⟨o, h1, by simpa using h2, h3⟩
  · intro h
    have hv := complete_order_valid_of_ok now db oid msg h
    rw [complete_order_snd now db oid hv]
    refine ⟨rfl, rfl, updateFirst_fst_length _ _ db.orders, ?_⟩
    intro i
    rcases updateFirst_getElem (fun x => x.oid == oid) (applySetComplete now)
        db.orders i with hcase | ⟨o, h1, h2, h3⟩
    · left; exact hcase
    · right; exact ⟨o, h1, by simpa using h2, h3⟩

theorem C9_transition_frame_witness :
    ((start_order 5 dbPending exOid).2).delivery_agents = dbPending.delivery_agents ∧
    ((start_order 5 dbPending exOid).2).location_history = dbPending.location_history ∧
    ((start_order 5 dbPending exOid).2).orders.length = dbPending.orders.length ∧
    ∀ i : Nat, ((start_order 5 dbPending exOid).2).orders[i]? = dbPending.orders[i]? ∨
      ∃ o, dbPending.orders[i]? = some o ∧ o.oid = exOid ∧
        ((start_order 5 dbPending exOid).2).orders[i]? =
          some { o with status := "in_progress", started_at := some 5 } :=
  (C9_transition_frame 5 dbPending exOid "Order started successfully").1 (by decide)

/-- Claim C10: the connection_response acknowledgement emitted by the
connect handler is a broadcast: it goes to every currently connected
session, so each previously connected session, not only the newly
connected one, receives the new session identifier. -/
theorem C10_connect_ack_broadcast (hub : Hub) (sid s : String)
    (hs : s ∈ hub.sessions) :
    (connectHandler hub sid).1.sessions = hub.sessions ++ [sid] ∧
    (connectHandler hub sid).2 =
      [.emit "connection_response" (.connAck "connected" sid)
        (hub.sessions ++ [sid])] ∧
    s ∈ broadcastRecipients (connectHandler hub sid).2 ∧
    sid ∈ broadcastRecipients (connectHandler hub sid).2 := by
  refine ⟨rfl, rfl, ?_, ?_⟩
  · simp only [connectHandler, broadcastRecipients, List.head?_cons, List.mem_append]
    exact Or.inl hs
  · simp [connectHandler, broadcastRecipients]

theorem C10_connect_ack_broadcast_witness :
    (connectHandler exHub "S3").1.sessions = exHub.sessions ++ ["S3"] ∧
    (connectHandler exHub "S3").2 =
      [.emit "connection_response" (.connAck "connected" "S3")
        (exHub.sessions ++ ["S3"])] ∧
    "S1" ∈ broadcastRecipients (connectHandler exHub "S3").2 ∧
    "S3" ∈ broadcastRecipients (connectHandler exHub "S3").2 :=
  C10_connect_ack_broadcast exHub "S3" "S1" (by decide)

end DriverAgent

